import Mathlib

set_option maxRecDepth 100000

/-!
Verification of `databricks_openai.vector_search_retriever_tool.VectorSearchRetrieverTool`.

The Python class has two operations:
* `_validate_tool_inputs` — a pydantic `model_validator(mode="after")` that checks
  the index name shape, resolves index metadata, validates the text/return columns,
  requires an embedding model for self-managed indexes, derives the tool name and
  description, and does a best-effort serving-endpoint lookup for resources.
* `execute` — maps a query string to a list of documents, either passing the raw
  text through (Databricks-managed embeddings) or computing an embedding vector
  first (self-managed embeddings), then issuing a similarity search and stripping
  scores from the parsed response.

External collaborators (`VectorSearchClient.get_index`, `IndexDetails`,
`validate_and_get_text_column`, `validate_and_get_return_columns`,
`pydantic_function_tool`, `_get_default_tool_description`, `_get_resources`,
`WorkspaceClient().serving_endpoints.get`, the OpenAI embeddings endpoint, and
`parse_vector_search_response`) live outside this file's source and are modelled
as explicit function parameters; the similarity-search request that `execute`
builds is reified as a `SearchRequest` value so that theorems can speak about
exactly what was submitted to the index.
-/

/-- Python truthiness of an `Optional[str]`: `None` and `""` are falsy. -/
def pyFalsy (s : Option String) : Bool :=
  s.getD "" = ""

/-- Helper for `pySplitDot`: walk the characters, cutting at every dot; `acc`
holds the reversed characters of the current segment. -/
def splitDotAux : List Char → List Char → List String
  | [], acc => [String.mk acc.reverse]
  | c :: cs, acc =>
    if c = '.' then String.mk acc.reverse :: splitDotAux cs []
    else splitDotAux cs (c :: acc)

/-- Python `s.split(".")`: the dot-separated segments of `s`
(`"a.b.c" ↦ ["a","b","c"]`, `"" ↦ [""]`, `"a..b" ↦ ["a","","b"]`). -/
def pySplitDot (s : String) : List String :=
  splitDotAux s.toList []

/-- Python `s.replace(".", "__")`: the pattern is a single character, so this is
a character-wise substitution. -/
def pyReplaceDots (s : String) : String :=
  String.mk ((s.toList.map fun c => if c = '.' then ['_', '_'] else [c]).flatten)

/-- Python `s[-n:]`: the last `n` characters of `s` (all of `s` when
`len(s) ≤ n`). -/
def pyTakeLast (s : String) (n : Nat) : String :=
  String.mk (s.toList.drop (s.toList.length - n))

/-- Python `s.upper()`, character-wise. -/
def pyUpper (s : String) : String :=
  String.mk (s.toList.map Char.toUpper)

/-- Python `a or b` for `a : Optional[str]` and a string default `b`. -/
def pyOr (s : Option String) (dflt : String) : String :=
  if pyFalsy s then dflt else s.getD ""

/-- The slice of `IndexDetails` that the source file consults:
`is_databricks_managed_embeddings()` and
`embedding_vector_column.get("embedding_dimension")` (absent key ↦ `none`). -/
structure IndexDetails where
  is_databricks_managed_embeddings : Bool
  embedding_dimension : Option Nat
  deriving Repr, DecidableEq

/-- The tool descriptor built by `pydantic_function_tool(VectorSearchRetrieverToolInput,
name=..., description=...)`; the input schema is a fixed constant so only the
name and description vary. -/
structure ChatCompletionToolParam where
  name : String
  description : String
  deriving Repr, DecidableEq

/-- The similarity-search request issued by `execute`, with exactly the keyword
arguments of `self._index.similarity_search(...)`.  Filters are an uninterpreted
payload. -/
structure SearchRequest where
  columns : List String
  query_text : Option String
  query_vector : Option (List Int)
  filters : Option String
  num_results : Nat
  query_type : Option String
  deriving Repr, DecidableEq

/-- The fields of the tool object: the user-facing pydantic fields, plus the
private attributes set by validation.  `index_details` is `self._index_details`;
`resources` records the arguments `(index_name, embedding_model_name)` passed to
the mixin helper `self._get_resources`. -/
structure ToolState where
  index_name : String
  text_column : Option String
  embedding_model_name : Option String
  columns : List String
  filters : Option String
  num_results : Nat
  query_type : Option String
  tool_name : Option String
  tool_description : Option String
  tool : Option ChatCompletionToolParam
  resources : Option (String × Option String)
  index_details : IndexDetails
  deriving Repr, DecidableEq

/-- Outcome of `WorkspaceClient().serving_endpoints.get(name)` together with the
imports and client construction inside the same `try` block: success, the
`ResourceDoesNotExist` error, or any other exception (carried as a message). -/
inductive ServingLookup where
  | found : ServingLookup
  | resource_does_not_exist : ServingLookup
  | failure : String → ServingLookup
  deriving Repr, DecidableEq

/-- The external collaborators consulted by `_validate_tool_inputs`, as black-box
functions: index resolution (`get_index` composed with `IndexDetails`), the two
column validators from `databricks_ai_bridge.utils.vector_search`, the default
tool description from the mixin, and the serving-endpoint lookup. -/
structure ValidateExt where
  get_index : String → Except String IndexDetails
  validate_and_get_text_column : Option String → IndexDetails → Except String String
  validate_and_get_return_columns :
    List String → String → IndexDetails → Except String (List String)
  get_default_tool_description : IndexDetails → String
  serving_endpoints_get : Option String → ServingLookup

/-- Source `get_tool_name` (inner function of `_validate_tool_inputs`):
`tool_name = self.tool_name or self.index_name.replace(".", "__")`, truncated to
its last 64 characters with a logged warning when longer than 64.  The second
component is the list of emitted warnings. -/
def get_tool_name (tool_name_field : Option String) (index_name : String) :
    String × List String :=
  let tool_name := pyOr tool_name_field (pyReplaceDots index_name)
  if 64 < tool_name.length then
    let truncated := pyTakeLast tool_name 64
    (truncated,
      ["Tool name " ++ tool_name ++ " is too long, truncating to 64 characters " ++
        truncated ++ "."])
  else
    (tool_name, [])

/-- Source `_validate_tool_inputs`, with the external calls supplied by `ext`.
Mirrors the source order: index-name shape check, `get_index`,
`validate_and_get_text_column`, `validate_and_get_return_columns`, the
embedding-model requirement for non-managed indexes, tool construction, then the
`try/except ResourceDoesNotExist` serving lookup that picks the arguments of
`_get_resources`.  Returns the updated state and the logged warnings, or the
raised error message. -/
def _validate_tool_inputs (st : ToolState) (ext : ValidateExt) :
    Except String (ToolState × List String) :=
  let nm := st.index_name
  if (pySplitDot nm).length ≠ 3 then
    .error ("Index name " ++ nm ++ " is not in the expected format catalog.schema.index.")
  else
    match ext.get_index st.index_name with
    | .error e => .error e
    | .ok index_details =>
      match ext.validate_and_get_text_column st.text_column index_details with
      | .error e => .error e
      | .ok text_column =>
        match ext.validate_and_get_return_columns st.columns text_column index_details with
        | .error e => .error e
        | .ok columns =>
          if !index_details.is_databricks_managed_embeddings
              && pyFalsy st.embedding_model_name then
            .error ("The embedding model name is required for non-Databricks-managed " ++
              "embeddings Vector Search indexes in order to generate embeddings for retrieval queries.")
          else
            let named := get_tool_name st.tool_name st.index_name
            let tool : ChatCompletionToolParam :=
              { name := named.1,
                description :=
                  pyOr st.tool_description (ext.get_default_tool_description index_details) }
            let st1 : ToolState :=
              { st with
                text_column := some text_column,
                columns := columns,
                index_details := index_details,
                tool := some tool }
            match ext.serving_endpoints_get st.embedding_model_name with
            | .found =>
              .ok ({ st1 with resources := some (st.index_name, st.embedding_model_name) },
                named.2)
            | .resource_does_not_exist =>
              .ok ({ st1 with resources := some (st.index_name, none) }, named.2)
            | .failure e => .error e

/-- Source condition `self.query_type and self.query_type.upper() == "HYBRID"`
(Python truthiness: a `None` or empty flag is not hybrid). -/
def query_type_is_hybrid (query_type : Option String) : Bool :=
  match query_type with
  | some s => s ≠ "" && pyUpper s = "HYBRID"
  | none => false

/-- Source dimension guard: `if (d := embedding_vector_column.get("embedding_dimension"))
and len(query_vector) != d: raise ValueError(...)`.  Python truthiness makes a
declared dimension of `0` skip the check. -/
def check_embedding_dimension (idx : IndexDetails) (query_vector : List Int) :
    Except String Unit :=
  match idx.embedding_dimension with
  | some index_embedding_dimension =>
    if index_embedding_dimension ≠ 0 ∧ query_vector.length ≠ index_embedding_dimension then
      let d := index_embedding_dimension
      let n := query_vector.length
      .error ("Expected embedding dimension " ++ toString d ++ " but got " ++ toString n)
    else
      .ok ()
  | none => .ok ()

/-- The request `execute` submits: the keyword arguments of
`self._index.similarity_search` read off the state, plus the computed
`query_text` / `query_vector` pair. -/
def mkSearchRequest (st : ToolState) (query_text : Option String)
    (query_vector : Option (List Int)) : SearchRequest :=
  { columns := st.columns,
    query_text := query_text,
    query_vector := query_vector,
    filters := st.filters,
    num_results := st.num_results,
    query_type := st.query_type }

/-- Source `execute`.  `api_key` is the truthiness of `oai_client.api_key` for the
caller-supplied-or-default client; `create_embedding` is
`oai_client.embeddings.create(input=query, model=self.embedding_model_name).data[0].embedding`;
`search_parse` is `similarity_search` composed with `parse_vector_search_response`
(a response that parses into document/score pairs), generic in the document and
score types.  The result pairs the (unchanged) object state with either the
raised error or the issued request and the returned documents. -/
def execute {D S : Type} (st : ToolState) (api_key : Bool)
    (create_embedding : String → Option String → List Int)
    (search_parse : SearchRequest → List (D × S))
    (query : String) : ToolState × Except String (SearchRequest × List D) :=
  let query_text_vector : Except String (Option String × Option (List Int)) :=
    if st.index_details.is_databricks_managed_embeddings then
      .ok (some query, none)
    else if !api_key then
      .error "OpenAI API key is required to generate embeddings for retrieval queries."
    else
      let query_text := if query_type_is_hybrid st.query_type then some query else none
      let query_vector := create_embedding query st.embedding_model_name
      match check_embedding_dimension st.index_details query_vector with
      | .error e => .error e
      | .ok _ => .ok (query_text, some query_vector)
  (st,
    match query_text_vector with
    | .error e => .error e
    | .ok (query_text, query_vector) =>
      let req := mkSearchRequest st query_text query_vector
      let docs_with_score := search_parse req
      .ok (req, docs_with_score.map Prod.fst))

/-! ### Concrete fixtures used by the witnesses -/

/-- Metadata of a Databricks-managed-embeddings index. -/
def exIdxManaged : IndexDetails :=
  { is_databricks_managed_embeddings := true, embedding_dimension := none }

/-- Metadata of a self-managed-embeddings index declaring dimension 768. -/
def exIdxSelf : IndexDetails :=
  { is_databricks_managed_embeddings := false, embedding_dimension := some 768 }

/-- A validated tool over a managed-embeddings index. -/
def exStateManaged : ToolState :=
  { index_name := "catalog.schema.my_index",
    text_column := some "text",
    embedding_model_name := none,
    columns := ["id", "text"],
    filters := none,
    num_results := 5,
    query_type := some "ANN",
    tool_name := none,
    tool_description := some "managed tool",
    tool := some { name := "catalog__schema__my_index", description := "managed tool" },
    resources := some ("catalog.schema.my_index", none),
    index_details := exIdxManaged }

/-- A validated tool over a self-managed-embeddings index with a hybrid flag. -/
def exStateSelf : ToolState :=
  { exStateManaged with
    embedding_model_name := some "text-embedding-3-small",
    query_type := some "hybrid",
    index_details := exIdxSelf }

/-- First example document of the spec. -/
def exDoc1 : List (String × String) := [("id", "1"), ("text", "a")]

/-- Second example document of the spec. -/
def exDoc2 : List (String × String) := [("id", "2"), ("text", "b")]

/-- A search-and-parse collaborator returning two scored documents. -/
def exParse : SearchRequest → List (List (String × String) × Int) :=
  fun _ => [(exDoc1, 9), (exDoc2, 5)]

/-- An embedding client returning a 768-dimensional vector. -/
def exEmbed768 : String → Option String → List Int :=
  fun _ _ => List.replicate 768 0

/-- An embedding client returning a 512-dimensional vector. -/
def exEmbed512 : String → Option String → List Int :=
  fun _ _ => List.replicate 512 0

/-! ### Claims about `execute` -/

/-- C1: on a managed-embeddings index, `execute q` issues the similarity search
with `query_text = q` unchanged and `query_vector = None`, and no embedding is
computed: the result does not depend on the embedding client or its API key. -/
theorem execute_managed_passes_query_text {D S : Type} (st : ToolState) (api_key : Bool)
    (create_embedding : String → Option String → List Int)
    (search_parse : SearchRequest → List (D × S)) (q : String)
    (h : st.index_details.is_databricks_managed_embeddings = true) :
    execute st api_key create_embedding search_parse q =
      (st, .ok (mkSearchRequest st (some q) none,
        (search_parse (mkSearchRequest st (some q) none)).map Prod.fst)) ∧
    ∀ (api_key2 : Bool) (ce2 : String → Option String → List Int),
      execute st api_key2 ce2 search_parse q =
        execute st api_key create_embedding search_parse q := by
  refine ⟨?_, ?_⟩
  · unfold execute
    simp [h]
  · intro api_key2 ce2
    unfold execute
    simp [h]

/-- Witness for C1 at a concrete managed-embeddings state. -/
theorem execute_managed_passes_query_text_witness :
    execute exStateManaged true exEmbed768 exParse "foo" =
      (exStateManaged, .ok (mkSearchRequest exStateManaged (some "foo") none,
        [exDoc1, exDoc2])) ∧
    ∀ (api_key2 : Bool) (ce2 : String → Option String → List Int),
      execute exStateManaged api_key2 ce2 exParse "foo" =
        execute exStateManaged true exEmbed768 exParse "foo" :=
  execute_managed_passes_query_text exStateManaged true exEmbed768 exParse "foo" rfl

/-- C9: `execute` never mutates the object: the state component of the result is
the input state, for every query and every outcome, so all configuration
fields, the index handle and the cached index metadata are unchanged. -/
theorem execute_preserves_state {D S : Type} (st : ToolState) (api_key : Bool)
    (create_embedding : String → Option String → List Int)
    (search_parse : SearchRequest → List (D × S)) (q : String) :
    (execute st api_key create_embedding search_parse q).1 = st :=
  rfl

/-- C4: whenever `execute` succeeds, the returned documents are exactly the
documents of the parsed (document, score) pairs of the issued request, in
order, with the scores dropped. -/
theorem execute_strips_scores {D S : Type} (st : ToolState) (api_key : Bool)
    (create_embedding : String → Option String → List Int)
    (search_parse : SearchRequest → List (D × S)) (q : String)
    (st2 : ToolState) (req : SearchRequest) (docs : List D)
    (h : execute st api_key create_embedding search_parse q = (st2, .ok (req, docs))) :
    docs = (search_parse req).map Prod.fst := by
  unfold execute at h
  simp only [Prod.mk.injEq] at h
  obtain ⟨-, h2⟩ := h
  split at h2
  · exact absurd h2 (by simp)
  · simp only [Except.ok.injEq, Prod.mk.injEq] at h2
    obtain ⟨hreq, hdocs⟩ := h2
    subst hreq
    exact hdocs.symm

/-- Witness for C4: the spec example, two documents with scores 9/10 and 5/10
stripped in order. -/
theorem execute_strips_scores_witness :
    [exDoc1, exDoc2] =
      (exParse (mkSearchRequest exStateManaged (some "q") none)).map Prod.fst :=
  execute_strips_scores exStateManaged true exEmbed768 exParse "q" exStateManaged
    (mkSearchRequest exStateManaged (some "q") none) [exDoc1, exDoc2] rfl

/-- C2: on a self-managed-embeddings index (with an API key available and the
dimension check passing), `execute q` computes the embedding vector for `q` and
issues the search with that vector; the query text is sent alongside exactly
when the query-type flag equals "HYBRID" case-insensitively, and is withheld
otherwise, including when the flag is unset. -/
theorem execute_self_managed_query_shapes {D S : Type} (st : ToolState)
    (create_embedding : String → Option String → List Int)
    (search_parse : SearchRequest → List (D × S)) (q : String)
    (hm : st.index_details.is_databricks_managed_embeddings = false)
    (hdim : check_embedding_dimension st.index_details
      (create_embedding q st.embedding_model_name) = .ok ()) :
    execute st true create_embedding search_parse q =
      (st, .ok (mkSearchRequest st
          (if query_type_is_hybrid st.query_type then some q else none)
          (some (create_embedding q st.embedding_model_name)),
        (search_parse (mkSearchRequest st
          (if query_type_is_hybrid st.query_type then some q else none)
          (some (create_embedding q st.embedding_model_name)))).map Prod.fst)) ∧
    (∀ s, st.query_type = some s →
      (query_type_is_hybrid st.query_type = true ↔ s ≠ "" ∧ pyUpper s = "HYBRID")) ∧
    (st.query_type = none → query_type_is_hybrid st.query_type = false) := by
  refine ⟨?_, ?_, ?_⟩
  · unfold execute
    simp [hm, hdim]
  · intro s hs
    rw [hs]
    simp [query_type_is_hybrid]
  · intro hn
    rw [hn]
    simp [query_type_is_hybrid]

/-- Witness for C2 at a concrete self-managed state with a hybrid flag. -/
theorem execute_self_managed_query_shapes_witness :
    execute exStateSelf true exEmbed768 exParse "foo" =
      (exStateSelf, .ok (mkSearchRequest exStateSelf
          (if query_type_is_hybrid exStateSelf.query_type then some "foo" else none)
          (some (exEmbed768 "foo" exStateSelf.embedding_model_name)),
        (exParse (mkSearchRequest exStateSelf
          (if query_type_is_hybrid exStateSelf.query_type then some "foo" else none)
          (some (exEmbed768 "foo" exStateSelf.embedding_model_name)))).map Prod.fst)) ∧
    (∀ s, exStateSelf.query_type = some s →
      (query_type_is_hybrid exStateSelf.query_type = true ↔ s ≠ "" ∧ pyUpper s = "HYBRID")) ∧
    (exStateSelf.query_type = none → query_type_is_hybrid exStateSelf.query_type = false) :=
  execute_self_managed_query_shapes exStateSelf exEmbed768 exParse "foo" rfl rfl

/-- C3: on a self-managed-embeddings index declaring a (nonzero) embedding
dimension `d`, if the embedding client returns a vector of length `n ≠ d` then
`execute` fails with a dimension-mismatch error naming both `d` and `n`, and no
search is submitted: the result does not depend on the search collaborator. -/
theorem execute_dimension_mismatch {D S : Type} (st : ToolState)
    (create_embedding : String → Option String → List Int)
    (search_parse : SearchRequest → List (D × S)) (q : String) (d n : Nat)
    (hm : st.index_details.is_databricks_managed_embeddings = false)
    (hd : st.index_details.embedding_dimension = some d)
    (hd0 : d ≠ 0)
    (hn : (create_embedding q st.embedding_model_name).length = n)
    (hne : n ≠ d) :
    execute st true create_embedding search_parse q =
      (st, .error ("Expected embedding dimension " ++ toString d ++ " but got " ++ toString n)) ∧
    ∀ (sp2 : SearchRequest → List (D × S)),
      execute st true create_embedding sp2 q =
        execute st true create_embedding search_parse q := by
  have hchk : check_embedding_dimension st.index_details
      (create_embedding q st.embedding_model_name) =
      .error ("Expected embedding dimension " ++ toString d ++ " but got " ++ toString n) := by
    unfold check_embedding_dimension
    rw [hd]
    dsimp only
    rw [hn, if_pos ⟨hd0, hne⟩]
  refine ⟨?_, ?_⟩
  · unfold execute
    simp [hm, hchk]
  · intro sp2
    unfold execute
    simp [hm, hchk]

/-- Witness for C3: declared dimension 768, computed vector of length 512. -/
theorem execute_dimension_mismatch_witness :
    execute exStateSelf true exEmbed512 exParse "foo" =
      (exStateSelf, .error "Expected embedding dimension 768 but got 512") ∧
    ∀ (sp2 : SearchRequest → List (List (String × String) × Int)),
      execute exStateSelf true exEmbed512 sp2 "foo" =
        execute exStateSelf true exEmbed512 exParse "foo" :=
  execute_dimension_mismatch exStateSelf exEmbed512 exParse "foo" 768 512 rfl rfl
    (by decide) rfl (by decide)

/-! ### Claims about `_validate_tool_inputs` -/

/-- External collaborators for the validation witnesses: every index resolves to
the self-managed metadata, the text column defaults to "text", the requested
columns are extended with the text column, and the serving lookup succeeds. -/
def exExt : ValidateExt :=
  { get_index := fun _ => .ok exIdxSelf,
    validate_and_get_text_column := fun tc _ => .ok (tc.getD "text"),
    validate_and_get_return_columns := fun cols tc _ => .ok (cols ++ [tc]),
    get_default_tool_description := fun _ => "default description",
    serving_endpoints_get := fun _ => .found }

/-- A state whose index name has no dots. -/
def exStateBadName : ToolState := { exStateManaged with index_name := "my_index" }

/-- C6: an index identifier that does not split into exactly three dot-separated
segments makes validation fail with the format error, for every choice of
external collaborators — so before any external index lookup is made. -/
theorem validate_rejects_malformed_index_name (st : ToolState)
    (h : (pySplitDot st.index_name).length ≠ 3) :
    ∀ ext : ValidateExt,
      _validate_tool_inputs st ext =
        .error ("Index name " ++ st.index_name ++
          " is not in the expected format catalog.schema.index.") := by
  intro ext
  unfold _validate_tool_inputs
  rw [if_pos h]

/-- Witness for C6 at an index name with no dots. -/
theorem validate_rejects_malformed_index_name_witness :
    _validate_tool_inputs exStateBadName exExt =
      .error ("Index name " ++ exStateBadName.index_name ++
        " is not in the expected format catalog.schema.index.") :=
  validate_rejects_malformed_index_name exStateBadName (by decide) exExt

/-- C7: when the resolved index metadata is not Databricks-managed and no
embedding model identifier is supplied (`None` or empty, Python falsiness),
validation fails with the configuration error, provided the earlier steps
(name shape, index resolution, column validation) pass. -/
theorem validate_requires_embedding_model (st : ToolState) (ext : ValidateExt)
    (idx : IndexDetails) (tc : String) (cols : List String)
    (h3 : (pySplitDot st.index_name).length = 3)
    (h1 : ext.get_index st.index_name = .ok idx)
    (hm : idx.is_databricks_managed_embeddings = false)
    (h4 : ext.validate_and_get_text_column st.text_column idx = .ok tc)
    (h5 : ext.validate_and_get_return_columns st.columns tc idx = .ok cols)
    (h6 : pyFalsy st.embedding_model_name = true) :
    _validate_tool_inputs st ext =
      .error ("The embedding model name is required for non-Databricks-managed " ++
        "embeddings Vector Search indexes in order to generate embeddings for retrieval queries.") := by
  unfold _validate_tool_inputs
  rw [if_neg (by simp [h3])]
  rw [h1]
  dsimp only
  rw [h4]
  dsimp only
  rw [h5]
  dsimp only
  rw [hm, h6]
  simp

/-- Witness for C7: a self-managed index with `embedding_model_name = none`. -/
theorem validate_requires_embedding_model_witness :
    _validate_tool_inputs exStateManaged exExt =
      .error ("The embedding model name is required for non-Databricks-managed " ++
        "embeddings Vector Search indexes in order to generate embeddings for retrieval queries.") :=
  validate_requires_embedding_model exStateManaged exExt exIdxSelf "text"
    ["id", "text", "text"] rfl rfl rfl rfl rfl rfl

/-- Shared shape lemma: a successful validation stores a tool whose name is the
one derived by `get_tool_name`, and returns exactly the warnings logged by
`get_tool_name`. -/
theorem validate_ok_shape (st : ToolState) (ext : ValidateExt) (st2 : ToolState)
    (warns : List String) (h : _validate_tool_inputs st ext = .ok (st2, warns)) :
    st2.tool.map ChatCompletionToolParam.name =
      some (get_tool_name st.tool_name st.index_name).1 ∧
    warns = (get_tool_name st.tool_name st.index_name).2 := by
  unfold _validate_tool_inputs at h
  dsimp only at h
  repeat' split at h
  all_goals first
  | exact Except.noConfusion h
  | (simp only [Except.ok.injEq, Prod.mk.injEq] at h
     obtain ⟨h1, h2⟩ := h
     subst h2
     rw [← h1]
     simp)

/-- C5: from a successful validation, the derived base name is the explicit
override when a nonempty one is given, else the index identifier with each dot
replaced by a double underscore; the stored tool name is that base name,
truncated to its last 64 characters exactly when it exceeds 64 characters, and
a warning is emitted exactly in the truncation case. -/
theorem validate_tool_name_derivation (st : ToolState) (ext : ValidateExt)
    (st2 : ToolState) (warns : List String)
    (h : _validate_tool_inputs st ext = .ok (st2, warns)) :
    (∀ s, st.tool_name = some s → s ≠ "" →
      pyOr st.tool_name (pyReplaceDots st.index_name) = s) ∧
    (st.tool_name = none →
      pyOr st.tool_name (pyReplaceDots st.index_name) = pyReplaceDots st.index_name) ∧
    st2.tool.map ChatCompletionToolParam.name =
      some (if 64 < (pyOr st.tool_name (pyReplaceDots st.index_name)).length then
          pyTakeLast (pyOr st.tool_name (pyReplaceDots st.index_name)) 64
        else pyOr st.tool_name (pyReplaceDots st.index_name)) ∧
    (64 < (pyOr st.tool_name (pyReplaceDots st.index_name)).length ↔ warns ≠ []) := by
  obtain ⟨htool, hwarns⟩ := validate_ok_shape st ext st2 warns h
  refine ⟨?_, ?_, ?_, ?_⟩
  · intro s hs hne
    simp [pyOr, pyFalsy, hs, hne]
  · intro hn
    simp [pyOr, pyFalsy, hn]
  · rw [htool]
    unfold get_tool_name
    by_cases hc : 64 < (pyOr st.tool_name (pyReplaceDots st.index_name)).length
    · simp [hc]
    · simp [hc]
  · subst hwarns
    unfold get_tool_name
    by_cases hc : 64 < (pyOr st.tool_name (pyReplaceDots st.index_name)).length
    · simp [hc]
    · simp [hc]

/-- A 70-character override name. -/
def exLongName : String := String.mk (List.replicate 70 'a')

/-- A state supplying the 70-character override. -/
def exStateLongName : ToolState := { exStateSelf with tool_name := some exLongName }

/-- The warnings logged when validating `exStateLongName`. -/
def exWarns : List String := (get_tool_name (some exLongName) "catalog.schema.my_index").2

/-- The state produced by validating `exStateLongName` against `exExt`. -/
def exStateLongNameValidated : ToolState :=
  { exStateLongName with
    text_column := some "text",
    columns := ["id", "text", "text"],
    index_details := exIdxSelf,
    tool := some { name := (get_tool_name (some exLongName) "catalog.schema.my_index").1,
                   description := "managed tool" },
    resources := some ("catalog.schema.my_index", some "text-embedding-3-small") }

/-- Witness for C5: a 70-character override is stored as its last 64 characters
and one warning is emitted. -/
theorem validate_tool_name_derivation_witness :
    (∀ s, exStateLongName.tool_name = some s → s ≠ "" →
      pyOr exStateLongName.tool_name (pyReplaceDots exStateLongName.index_name) = s) ∧
    (exStateLongName.tool_name = none →
      pyOr exStateLongName.tool_name (pyReplaceDots exStateLongName.index_name) =
        pyReplaceDots exStateLongName.index_name) ∧
    exStateLongNameValidated.tool.map ChatCompletionToolParam.name =
      some (if 64 <
          (pyOr exStateLongName.tool_name (pyReplaceDots exStateLongName.index_name)).length then
          pyTakeLast (pyOr exStateLongName.tool_name
            (pyReplaceDots exStateLongName.index_name)) 64
        else pyOr exStateLongName.tool_name (pyReplaceDots exStateLongName.index_name)) ∧
    (64 < (pyOr exStateLongName.tool_name (pyReplaceDots exStateLongName.index_name)).length ↔
      exWarns ≠ []) :=
  validate_tool_name_derivation exStateLongName exExt exStateLongNameValidated exWarns rfl

/-- The state a successful validation produces, given the outcomes of the
external calls and the second argument passed to `_get_resources`. -/
def validatedState (st : ToolState) (ext : ValidateExt) (idx : IndexDetails)
    (tc : String) (cols : List String) (res : Option String) : ToolState :=
  { st with
    text_column := some tc,
    columns := cols,
    index_details := idx,
    tool := some { name := (get_tool_name st.tool_name st.index_name).1,
                   description := pyOr st.tool_description
                     (ext.get_default_tool_description idx) },
    resources := some (st.index_name, res) }

/-- C8: the serving-endpoint lookup is best-effort.  Under the hypotheses that
the earlier validation steps pass, a `found` outcome includes the embedding
model in the `_get_resources` arguments, a `ResourceDoesNotExist` outcome falls
back to `_get_resources` without it (construction still succeeds), and any
other failure of the lookup propagates as the validation error. -/
theorem validate_serving_lookup_best_effort (st : ToolState) (ext : ValidateExt)
    (idx : IndexDetails) (tc : String) (cols : List String)
    (h3 : (pySplitDot st.index_name).length = 3)
    (h1 : ext.get_index st.index_name = .ok idx)
    (h4 : ext.validate_and_get_text_column st.text_column idx = .ok tc)
    (h5 : ext.validate_and_get_return_columns st.columns tc idx = .ok cols)
    (hne : (!idx.is_databricks_managed_embeddings
      && pyFalsy st.embedding_model_name) = false) :
    (ext.serving_endpoints_get st.embedding_model_name = .found →
      ∃ st2 warns, _validate_tool_inputs st ext = .ok (st2, warns) ∧
        st2.resources = some (st.index_name, st.embedding_model_name)) ∧
    (ext.serving_endpoints_get st.embedding_model_name = .resource_does_not_exist →
      ∃ st2 warns, _validate_tool_inputs st ext = .ok (st2, warns) ∧
        st2.resources = some (st.index_name, none)) ∧
    (∀ e, ext.serving_endpoints_get st.embedding_model_name = .failure e →
      _validate_tool_inputs st ext = .error e) := by
  refine ⟨?_, ?_, ?_⟩
  · intro hs
    refine ⟨validatedState st ext idx tc cols st.embedding_model_name,
      (get_tool_name st.tool_name st.index_name).2, ?_, rfl⟩
    unfold _validate_tool_inputs
    rw [if_neg (by simp [h3]), h1]
    dsimp only
    rw [h4]
    dsimp only
    rw [h5]
    dsimp only
    rw [hne, if_neg (by simp), hs]
    rfl
  · intro hs
    refine ⟨validatedState st ext idx tc cols none,
      (get_tool_name st.tool_name st.index_name).2, ?_, rfl⟩
    unfold _validate_tool_inputs
    rw [if_neg (by simp [h3]), h1]
    dsimp only
    rw [h4]
    dsimp only
    rw [h5]
    dsimp only
    rw [hne, if_neg (by simp), hs]
    rfl
  · intro e hs
    unfold _validate_tool_inputs
    rw [if_neg (by simp [h3]), h1]
    dsimp only
    rw [h4]
    dsimp only
    rw [h5]
    dsimp only
    rw [hne, if_neg (by simp), hs]

/-- Collaborators whose serving lookup reports `ResourceDoesNotExist`. -/
def exExtMiss : ValidateExt :=
  { exExt with serving_endpoints_get := fun _ => .resource_does_not_exist }

/-- Witness for C8: the not-found outcome builds the resources without the
embedding model and construction succeeds. -/
theorem validate_serving_lookup_best_effort_witness :
    (exExtMiss.serving_endpoints_get exStateSelf.embedding_model_name = .found →
      ∃ st2 warns, _validate_tool_inputs exStateSelf exExtMiss = .ok (st2, warns) ∧
        st2.resources = some (exStateSelf.index_name, exStateSelf.embedding_model_name)) ∧
    (exExtMiss.serving_endpoints_get exStateSelf.embedding_model_name =
        .resource_does_not_exist →
      ∃ st2 warns, _validate_tool_inputs exStateSelf exExtMiss = .ok (st2, warns) ∧
        st2.resources = some (exStateSelf.index_name, none)) ∧
    (∀ e, exExtMiss.serving_endpoints_get exStateSelf.embedding_model_name = .failure e →
      _validate_tool_inputs exStateSelf exExtMiss = .error e) :=
  validate_serving_lookup_best_effort exStateSelf exExtMiss exIdxSelf "text"
    ["id", "text", "text"] rfl rfl rfl rfl rfl

/-- C10: the serving-endpoint lookup is attempted even for a managed index whose
embedding model name is `None`: the construction outcome is decided by the
lookup's result at that `None` name — only `ResourceDoesNotExist` is caught
(resources fall back without the model), a success passes the `None` name to
`_get_resources`, and any other exception (from the lookup, the client
construction, or the imports inside the `try` block) aborts construction. -/
theorem validate_serving_lookup_none_name (st : ToolState) (ext : ValidateExt)
    (idx : IndexDetails) (tc : String) (cols : List String)
    (h3 : (pySplitDot st.index_name).length = 3)
    (h1 : ext.get_index st.index_name = .ok idx)
    (h4 : ext.validate_and_get_text_column st.text_column idx = .ok tc)
    (h5 : ext.validate_and_get_return_columns st.columns tc idx = .ok cols)
    (hmng : idx.is_databricks_managed_embeddings = true)
    (hname : st.embedding_model_name = none) :
    (∀ e, ext.serving_endpoints_get none = .failure e →
      _validate_tool_inputs st ext = .error e) ∧
    (ext.serving_endpoints_get none = .resource_does_not_exist →
      ∃ st2 warns, _validate_tool_inputs st ext = .ok (st2, warns) ∧
        st2.resources = some (st.index_name, none)) ∧
    (ext.serving_endpoints_get none = .found →
      ∃ st2 warns, _validate_tool_inputs st ext = .ok (st2, warns) ∧
        st2.resources = some (st.index_name, none)) := by
  have hne : (!idx.is_databricks_managed_embeddings
      && pyFalsy st.embedding_model_name) = false := by
    rw [hmng]
    rfl
  refine ⟨?_, ?_, ?_⟩
  · intro e hs
    have hs2 : ext.serving_endpoints_get st.embedding_model_name = .failure e := by
      rw [hname]
      exact hs
    unfold _validate_tool_inputs
    rw [if_neg (by simp [h3]), h1]
    dsimp only
    rw [h4]
    dsimp only
    rw [h5]
    dsimp only
    rw [hne, if_neg (by simp), hs2]
  · intro hs
    have hs2 : ext.serving_endpoints_get st.embedding_model_name =
        .resource_does_not_exist := by
      rw [hname]
      exact hs
    refine ⟨validatedState st ext idx tc cols none,
      (get_tool_name st.tool_name st.index_name).2, ?_, rfl⟩
    unfold _validate_tool_inputs
    rw [if_neg (by simp [h3]), h1]
    dsimp only
    rw [h4]
    dsimp only
    rw [h5]
    dsimp only
    rw [hne, if_neg (by simp), hs2]
    rfl
  · intro hs
    have hs2 : ext.serving_endpoints_get st.embedding_model_name = .found := by
      rw [hname]
      exact hs
    refine ⟨validatedState st ext idx tc cols st.embedding_model_name,
      (get_tool_name st.tool_name st.index_name).2, ?_, ?_⟩
    · unfold _validate_tool_inputs
      rw [if_neg (by simp [h3]), h1]
      dsimp only
      rw [h4]
      dsimp only
      rw [h5]
      dsimp only
      rw [hne, if_neg (by simp), hs2]
      rfl
    · rw [hname]
      rfl

/-- Collaborators resolving a managed index, with a serving lookup that raises a
non-not-found error. -/
def exExtManagedFail : ValidateExt :=
  { exExt with
    get_index := fun _ => .ok exIdxManaged,
    serving_endpoints_get := fun _ => .failure "connection error" }

/-- Witness for C10: a managed index with no embedding model name, whose serving
lookup raises an error other than not-found. -/
theorem validate_serving_lookup_none_name_witness :
    (∀ e, exExtManagedFail.serving_endpoints_get none = .failure e →
      _validate_tool_inputs exStateManaged exExtManagedFail = .error e) ∧
    (exExtManagedFail.serving_endpoints_get none = .resource_does_not_exist →
      ∃ st2 warns, _validate_tool_inputs exStateManaged exExtManagedFail = .ok (st2, warns) ∧
        st2.resources = some (exStateManaged.index_name, none)) ∧
    (exExtManagedFail.serving_endpoints_get none = .found →
      ∃ st2 warns, _validate_tool_inputs exStateManaged exExtManagedFail = .ok (st2, warns) ∧
        st2.resources = some (exStateManaged.index_name, none)) :=
  validate_serving_lookup_none_name exStateManaged exExtManagedFail exIdxManaged "text"
    ["id", "text", "text"] rfl rfl rfl rfl rfl rfl
